import Mathlib

set_option maxHeartbeats 1000000

/- Shallow embedding of the inventory / sales ledger implemented in src/app.py.
   SQLAlchemy Float columns are modelled as exact rationals, autoincrement
   primary keys as per-table counters carried in the store state, and the JSON
   payload written to the activity log as a small structured value. Timestamps
   are omitted: no verified property mentions them. Each mutating endpoint
   takes a flag telling whether the activity-log append (a separate
   db.session.commit in log_activity, executed after the endpoint's own
   commit) can be durably written; the domain commit itself always succeeds,
   mirroring the order of commits in the source. -/

inductive Jx where
  | null : Jx
  | str : String → Jx
  | num : ℚ → Jx
  | arr : List Jx → Jx
  | obj : List (String × Jx) → Jx

structure Material where
  id : Nat
  name : String
  quantity : ℚ
  type : String
  colour : Option String
  supplier : String
  total_quantity : ℚ
deriving DecidableEq

structure MaterialRoll where
  id : Nat
  material_id : Nat
  quantity : ℚ
deriving DecidableEq

structure Customer where
  id : Nat
  name : String
  contact : String
  debt : ℚ
  location : Option String
deriving DecidableEq

structure Sale where
  id : Nat
  material_id : Nat
  customer_id : Option Nat
  quantity_sold : ℚ
  price : ℚ
deriving DecidableEq

structure ActivityLog where
  id : Nat
  action_type : String
  table_name : String
  record_id : Nat
  changes : Jx

structure DB where
  materials : List Material
  rolls : List MaterialRoll
  customers : List Customer
  sales : List Sale
  logs : List ActivityLog
  nextMaterialId : Nat
  nextRollId : Nat
  nextCustomerId : Nat
  nextSaleId : Nat
  nextLogId : Nat

def DB.empty : DB :=
  { materials := [], rolls := [], customers := [], sales := [], logs := [],
    nextMaterialId := 1, nextRollId := 1, nextCustomerId := 1,
    nextSaleId := 1, nextLogId := 1 }

structure MaterialReq where
  name : String
  type : String
  colour : Option String
  supplier : String
deriving DecidableEq

structure RollsReq where
  name : String
  type : String
  quantities : List ℚ
deriving DecidableEq

structure CustomerReq where
  name : String
  contact : String
deriving DecidableEq

structure CustomerUpdate where
  name : Option String
  contact : Option String
deriving DecidableEq

structure SaleReq where
  material_id : Nat
  customer_id : Option Nat
  quantity_sold : ℚ
  price : ℚ
  amount_due : Option ℚ
deriving DecidableEq

structure SaleUpdate where
  quantity_sold : Option ℚ
  price : Option ℚ
deriving DecidableEq

inductive ApiResult where
  | created : String → Nat → ApiResult
  | ok : String → ApiResult
  | err : Nat → String → ApiResult
deriving DecidableEq

def ApiResult.isSuccess : ApiResult → Bool
  | .err _ _ => false
  | _ => true

def findMaterial (db : DB) (i : Nat) : Option Material :=
  db.materials.find? (fun m => m.id == i)

def findRoll (db : DB) (i : Nat) : Option MaterialRoll :=
  db.rolls.find? (fun r => r.id == i)

def findCustomer (db : DB) (i : Nat) : Option Customer :=
  db.customers.find? (fun c => c.id == i)

def findSale (db : DB) (i : Nat) : Option Sale :=
  db.sales.find? (fun s => s.id == i)

def findMaterialByNameTypeSupplier (db : DB) (n t s : String) : Option Material :=
  db.materials.find? (fun m => m.name == n && m.type == t && m.supplier == s)

def findMaterialByNameType (db : DB) (n t : String) : Option Material :=
  db.materials.find? (fun m => m.name == n && m.type == t)

/- The ActivityLog row built by log_activity. -/
def logEntry (db : DB) (action_type table_name : String) (record_id : Nat)
    (changes : Jx) : ActivityLog :=
  { id := db.nextLogId, action_type := action_type, table_name := table_name,
    record_id := record_id, changes := changes }

/- log_activity from src/app.py lines 78-86: appends one ActivityLog row and
   commits it in its own transaction. logOk = false models that this second
   commit cannot be durably written (the enclosing request then errors). -/
def log_activity (logOk : Bool) (db : DB) (action_type table_name : String)
    (record_id : Nat) (changes : Jx) : Option DB :=
  if logOk then
    some { db with
      logs := db.logs ++ [logEntry db action_type table_name record_id changes],
      nextLogId := db.nextLogId + 1 }
  else none

/- Common endpoint tail: the domain state db is already committed when
   log_activity runs; on log failure the request reports an error with the
   domain mutation left in place. -/
def withLog (logOk : Bool) (db : DB) (action_type table_name : String)
    (record_id : Nat) (changes : Jx) (res : ApiResult) : ApiResult × DB :=
  match log_activity logOk db action_type table_name record_id changes with
  | some db2 => (res, db2)
  | none => (.err 500 "Activity log write failed", db)

def optField (k : String) (f : α → Jx) : Option α → List (String × Jx)
  | some a => [(k, f a)]
  | none => []

def MaterialReq.toJx (r : MaterialReq) : Jx :=
  Jx.obj ([("name", Jx.str r.name), ("type", Jx.str r.type)] ++
    optField "colour" Jx.str r.colour ++ [("supplier", Jx.str r.supplier)])

def CustomerUpdate.toJx (u : CustomerUpdate) : Jx :=
  Jx.obj (optField "name" Jx.str u.name ++ optField "contact" Jx.str u.contact)

def SaleUpdate.toJx (u : SaleUpdate) : Jx :=
  Jx.obj (optField "quantity_sold" Jx.num u.quantity_sold ++
    optField "price" Jx.num u.price)

/- add_material, src/app.py lines 90-111. -/
def add_material (logOk : Bool) (db : DB) (req : MaterialReq) : ApiResult × DB :=
  match findMaterialByNameTypeSupplier db req.name req.type req.supplier with
  | some _ => (.err 400 "Material already exists, use /api/add_rolls instead", db)
  | none =>
    let new_material : Material :=
      { id := db.nextMaterialId, name := req.name, quantity := 0,
        type := req.type, colour := req.colour, supplier := req.supplier,
        total_quantity := 0 }
    let db1 := { db with materials := db.materials ++ [new_material],
                         nextMaterialId := db.nextMaterialId + 1 }
    withLog logOk db1 "ADD" "materials" new_material.id req.toJx
      (.created "Material added successfully!" new_material.id)

def buildRolls (startId mid : Nat) : List ℚ → List MaterialRoll
  | [] => []
  | q :: qs =>
    { id := startId, material_id := mid, quantity := q } :: buildRolls (startId + 1) mid qs

/- add_rolls, src/app.py lines 115-132. -/
def add_rolls (logOk : Bool) (db : DB) (req : RollsReq) : ApiResult × DB :=
  match findMaterialByNameType db req.name req.type with
  | none => (.err 404 "Material not found, please add it first using /api/materials", db)
  | some material =>
    let roll_entries := buildRolls db.nextRollId material.id req.quantities
    let db1 := { db with rolls := db.rolls ++ roll_entries,
                         nextRollId := db.nextRollId + req.quantities.length }
    withLog logOk db1 "ADD" "material_rolls" material.id
      (Jx.obj [("added_rolls", Jx.arr (req.quantities.map Jx.num))])
      (.created "rolls added successfully!" material.id)

/- delete_material, src/app.py lines 173-187: deletes the Material's rolls,
   then the Material, then logs with the material's name as payload. When any
   Sale still references the material, the ORM relationship (app.py lines 48
   and 55: Sale.material_id is a NOT NULL column with no delete cascade) makes
   the flush try to null sale.material_id, which violates the constraint: the
   commit raises IntegrityError, the request answers 500, and the whole
   transaction — the roll deletion included — rolls back, leaving the store
   unchanged. -/
def delete_material (logOk : Bool) (db : DB) (material_id : Nat) : ApiResult × DB :=
  match findMaterial db material_id with
  | none => (.err 404 "Material not found", db)
  | some material =>
    if db.sales.any (fun s => s.material_id == material.id) then
      (.err 500 "Internal server error", db)
    else
      let db1 := { db with
        rolls := db.rolls.filter (fun r => !(r.material_id == material.id)),
        materials := db.materials.filter (fun m => !(m.id == material.id)) }
      withLog logOk db1 "DELETE" "materials" material_id
        (Jx.obj [("deleted_material", Jx.str material.name)])
        (.ok "Material and associated rolls deleted successfully")

/- delete_roll, src/app.py lines 191-204. -/
def delete_roll (logOk : Bool) (db : DB) (roll_id : Nat) : ApiResult × DB :=
  match findRoll db roll_id with
  | none => (.err 404 "Roll not found", db)
  | some roll =>
    let db1 := { db with rolls := db.rolls.filter (fun r => !(r.id == roll_id)) }
    withLog logOk db1 "DELETE" "material_rolls" roll_id
      (Jx.obj [("deleted_roll",
        Jx.obj [("material_id", Jx.num roll.material_id),
                ("quantity", Jx.num roll.quantity)])])
      (.ok "Roll deleted successfully")

/- update_roll, src/app.py lines 208-223. -/
def update_roll (logOk : Bool) (db : DB) (roll_id : Nat) (quantity : ℚ) : ApiResult × DB :=
  match findRoll db roll_id with
  | none => (.err 404 "Roll not found", db)
  | some roll =>
    let newRolls := db.rolls.map
      (fun r => if r.id == roll_id then { r with quantity := quantity } else r)
    let db1 := { db with rolls := newRolls }
    withLog logOk db1 "UPDATE" "material_rolls" roll_id
      (Jx.obj [("before", Jx.obj [("quantity", Jx.num roll.quantity)]),
               ("after", Jx.obj [("quantity", Jx.num quantity)])])
      (.ok "Roll updated successfully!")

/- add_customer, src/app.py lines 234-243: debt is initialised to zero. -/
def add_customer (logOk : Bool) (db : DB) (req : CustomerReq) : ApiResult × DB :=
  let new_customer : Customer :=
    { id := db.nextCustomerId, name := req.name, contact := req.contact,
      debt := 0, location := none }
  let db1 := { db with customers := db.customers ++ [new_customer],
                       nextCustomerId := db.nextCustomerId + 1 }
  withLog logOk db1 "ADD" "customers" new_customer.id
    (Jx.obj [("name", Jx.str req.name), ("contact", Jx.str req.contact)])
    (.created "Customer added successfully!" new_customer.id)

/- edit_customer, src/app.py lines 247-262: only name and contact change. -/
def edit_customer (logOk : Bool) (db : DB) (customer_id : Nat)
    (u : CustomerUpdate) : ApiResult × DB :=
  match findCustomer db customer_id with
  | none => (.err 404 "Customer not found", db)
  | some customer =>
    let old_data := Jx.obj [("name", Jx.str customer.name),
      ("contact", Jx.str customer.contact), ("debt", Jx.num customer.debt)]
    let newCustomers := db.customers.map
      (fun c => if c.id == customer.id then
        { c with name := u.name.getD c.name, contact := u.contact.getD c.contact }
        else c)
    let db1 := { db with customers := newCustomers }
    withLog logOk db1 "UPDATE" "customers" customer.id
      (Jx.obj [("before", old_data), ("after", u.toJx)])
      (.ok "Customer updated successfully!")

/- delete_customer, src/app.py lines 266-278. The ORM relationship
   (app.py lines 49 and 56: Sale.customer_id is nullable, no delete cascade)
   nulls the customer_id of every Sale referencing the deleted customer on
   flush; the column is nullable, so the delete succeeds. -/
def delete_customer (logOk : Bool) (db : DB) (customer_id : Nat) : ApiResult × DB :=
  match findCustomer db customer_id with
  | none => (.err 404 "Customer not found", db)
  | some customer =>
    let newSales := db.sales.map (fun s =>
      if s.customer_id == some customer.id then { s with customer_id := none }
      else s)
    let newCustomers := db.customers.filter (fun c => !(c.id == customer.id))
    let db1 := { db with customers := newCustomers, sales := newSales }
    withLog logOk db1 "DELETE" "customers" customer_id
      (Jx.obj [("deleted_customer",
        Jx.obj [("name", Jx.str customer.name),
                ("contact", Jx.str customer.contact)])])
      (.ok "Customer deleted successfully!")

def optNumJx : Option Nat → Jx
  | some n => Jx.num n
  | none => Jx.null

/- add_sale, src/app.py lines 283-321: looks up material and customer, checks
   stock, deducts, inserts the Sale, adds amount_due to the customer's debt
   when the customer exists and amount_due was supplied, commits, then logs. -/
def add_sale (logOk : Bool) (db : DB) (req : SaleReq) : ApiResult × DB :=
  let customer? := req.customer_id.bind (fun cid => findCustomer db cid)
  match findMaterial db req.material_id with
  | none => (.err 404 "Material not found", db)
  | some material =>
    if material.total_quantity < req.quantity_sold then
      (.err 400 "Insufficient stock", db)
    else
      let new_sale : Sale :=
        { id := db.nextSaleId, material_id := req.material_id,
          customer_id := req.customer_id,
          quantity_sold := req.quantity_sold, price := req.price }
      let db1 := { db with
        materials := db.materials.map (fun m =>
          if m.id == req.material_id then
            { m with total_quantity := m.total_quantity - req.quantity_sold }
          else m),
        sales := db.sales ++ [new_sale],
        nextSaleId := db.nextSaleId + 1 }
      let db2 := match customer?, req.amount_due with
        | some c, some amt =>
          { db1 with customers := db1.customers.map (fun x =>
              if x.id == c.id then { x with debt := x.debt + amt } else x) }
        | _, _ => db1
      withLog logOk db2 "SALE" "sales" new_sale.id
        (Jx.obj [("material_id", Jx.num req.material_id),
                 ("customer_id", optNumJx req.customer_id),
                 ("quantity_sold", Jx.num req.quantity_sold),
                 ("price", Jx.num req.price)])
        (.ok "Sale recorded successfully!")

/- edit_sale, src/app.py lines 343-364: applies the new quantity and price to
   the Sale, then adds the old quantity back to the material stock and deducts
   the new one; no sufficiency check. A sale whose material row is missing
   makes the handler raise before its commit (dangling relationship), leaving
   the store unchanged. -/
def edit_sale (logOk : Bool) (db : DB) (sale_id : Nat) (u : SaleUpdate) : ApiResult × DB :=
  match findSale db sale_id with
  | none => (.err 404 "Sale not found", db)
  | some sale =>
    match findMaterial db sale.material_id with
    | none => (.err 500 "Internal server error", db)
    | some _ =>
      let old_quantity := sale.quantity_sold
      let new_sale := { sale with
        quantity_sold := u.quantity_sold.getD sale.quantity_sold,
        price := u.price.getD sale.price }
      let db1 := { db with
        sales := db.sales.map (fun s => if s.id == sale_id then new_sale else s),
        materials := db.materials.map (fun m =>
          if m.id == sale.material_id then
            { m with total_quantity :=
                m.total_quantity + old_quantity - new_sale.quantity_sold }
          else m) }
      withLog logOk db1 "UPDATE" "sales" sale.id
        (Jx.obj [("before", Jx.obj [("quantity_sold", Jx.num sale.quantity_sold),
                                    ("price", Jx.num sale.price)]),
                 ("after", u.toJx)])
        (.ok "Sale updated successfully!")

/- delete_sale, src/app.py lines 369-388: restores the sale's quantity onto
   the material's stock and removes the Sale. -/
def delete_sale (logOk : Bool) (db : DB) (sale_id : Nat) : ApiResult × DB :=
  match findSale db sale_id with
  | none => (.err 404 "Sale not found", db)
  | some sale =>
    match findMaterial db sale.material_id with
    | none => (.err 500 "Internal server error", db)
    | some _ =>
      let db1 := { db with
        materials := db.materials.map (fun m =>
          if m.id == sale.material_id then
            { m with total_quantity := m.total_quantity + sale.quantity_sold }
          else m),
        sales := db.sales.filter (fun s => !(s.id == sale_id)) }
      withLog logOk db1 "DELETE" "sales" sale_id
        (Jx.obj [("deleted_sale",
          Jx.obj [("material_id", Jx.num sale.material_id),
                  ("customer_id", optNumJx sale.customer_id),
                  ("quantity_sold", Jx.num sale.quantity_sold),
                  ("price", Jx.num sale.price)])])
        (.ok "Sale deleted and stock restored!")

/- The mutating operations of the command interface, for properties quantified
   over every audited mutation. -/
inductive Op where
  | addMaterial : MaterialReq → Op
  | addRolls : RollsReq → Op
  | deleteMaterial : Nat → Op
  | deleteRoll : Nat → Op
  | updateRoll : Nat → ℚ → Op
  | addCustomer : CustomerReq → Op
  | editCustomer : Nat → CustomerUpdate → Op
  | deleteCustomer : Nat → Op
  | addSale : SaleReq → Op
  | editSale : Nat → SaleUpdate → Op
  | deleteSale : Nat → Op

def applyOp (logOk : Bool) (db : DB) : Op → ApiResult × DB
  | .addMaterial req => add_material logOk db req
  | .addRolls req => add_rolls logOk db req
  | .deleteMaterial i => delete_material logOk db i
  | .deleteRoll i => delete_roll logOk db i
  | .updateRoll i q => update_roll logOk db i q
  | .addCustomer req => add_customer logOk db req
  | .editCustomer i u => edit_customer logOk db i u
  | .deleteCustomer i => delete_customer logOk db i
  | .addSale req => add_sale logOk db req
  | .editSale i u => edit_sale logOk db i u
  | .deleteSale i => delete_sale logOk db i

/- Observation helpers. -/
def matQty (db : DB) (i : Nat) : Option ℚ :=
  (findMaterial db i).map (fun m => m.total_quantity)

/- General list lemmas used to reason about the id-keyed updates. -/

def matA : Material :=
  { id := 1, name := "A", quantity := 0, type := "enli", colour := none,
    supplier := "S", total_quantity := 10 }

def dbA : DB := { DB.empty with materials := [matA], nextMaterialId := 2 }

/- The Material row inserted by a successful add_material call. -/
def newMaterial (db : DB) (req : MaterialReq) : Material :=
  { id := db.nextMaterialId, name := req.name, quantity := 0,
    type := req.type, colour := req.colour, supplier := req.supplier,
    total_quantity := 0 }

def rollA : MaterialRoll := { id := 1, material_id := 1, quantity := 5 }

def dbAR : DB :=
  { DB.empty with
    materials := [matA], rolls := [rollA],
    nextMaterialId := 2, nextRollId := 2 }

def matA7 : Material := { matA with total_quantity := 7 }

def saleA : Sale :=
  { id := 1, material_id := 1, customer_id := none,
    quantity_sold := 3, price := 4 }

def dbAS : DB :=
  { DB.empty with
    materials := [matA7], sales := [saleA],
    nextMaterialId := 2, nextSaleId := 2 }

def matB : Material :=
  { id := 2, name := "B", quantity := 0, type := "enli", colour := none,
    supplier := "S", total_quantity := 0 }

def dbAB : DB := { DB.empty with materials := [matA, matB], nextMaterialId := 3 }

/- Spec-side description of the (action kind, table_name, record_id) triple
   carried by the single log entry of each successful mutating operation; for
   addRolls the record id is the owning Material's id rather than the id of
   any created Roll. -/
def expectedLogTarget (db : DB) : Op → Option (String × String × Nat)
  | .addMaterial _ => some ("ADD", "materials", db.nextMaterialId)
  | .addRolls r => (findMaterialByNameType db r.name r.type).map
      (fun m => ("ADD", "material_rolls", m.id))
  | .deleteMaterial i => some ("DELETE", "materials", i)
  | .deleteRoll i => some ("DELETE", "material_rolls", i)
  | .updateRoll i _ => some ("UPDATE", "material_rolls", i)
  | .addCustomer _ => some ("ADD", "customers", db.nextCustomerId)
  | .editCustomer i _ => some ("UPDATE", "customers", i)
  | .deleteCustomer i => some ("DELETE", "customers", i)
  | .addSale _ => some ("SALE", "sales", db.nextSaleId)
  | .editSale i _ => some ("UPDATE", "sales", i)
  | .deleteSale i => some ("DELETE", "sales", i)

/- The Sale row as rewritten by edit_sale. -/
def updatedSale (s : Sale) (u : SaleUpdate) : Sale :=
  { s with
    quantity_sold := u.quantity_sold.getD s.quantity_sold,
    price := u.price.getD s.price }

/- The Sale row inserted by a successful add_sale. -/
def newSaleRow (db : DB) (req : SaleReq) : Sale :=
  { id := db.nextSaleId, material_id := req.material_id,
    customer_id := req.customer_id, quantity_sold := req.quantity_sold,
    price := req.price }

/- The Customer row inserted by add_customer: debt starts at zero. -/
def newCustomerRow (db : DB) (req : CustomerReq) : Customer :=
  { id := db.nextCustomerId, name := req.name, contact := req.contact,
    debt := 0, location := none }

def custA : Customer :=
  { id := 1, name := "N", contact := "T", debt := 0, location := none }

def dbMC : DB :=
  { DB.empty with
    materials := [matA], customers := [custA],
    nextMaterialId := 2, nextCustomerId := 2 }

theorem find?_map_pred {α : Type} (p : α → Bool) (g : α → α)
    (hg : ∀ a, p (g a) = p a) :
    ∀ l : List α, (l.map g).find? p = (l.find? p).map g := by
  intro l
  induction l with
  | nil => rfl
  | cons a t ih =>
    cases h : p a with
    | true => simp [List.find?, hg, h]
    | false => simp [List.find?, hg, h, ih]

theorem find?_filter_of_imp {α : Type} (p q : α → Bool) (l : List α)
    (h : ∀ a, p a = true → q a = true) :
    (l.filter q).find? p = l.find? p := by
  induction l with
  | nil => rfl
  | cons a t ih =>
    cases hq : q a with
    | true =>
      cases hp : p a with
      | true => simp [List.filter, hq, List.find?, hp]
      | false => simp [List.filter, hq, List.find?, hp, ih]
    | false =>
      have hp : p a = false := by
        cases hpa : p a with
        | true => exact absurd (h a hpa) (by simp [hq])
        | false => rfl
      simp [List.filter, hq, List.find?, hp, ih]

theorem find?_filter_none {α : Type} (p q : α → Bool) (l : List α)
    (h : ∀ a, p a = true → q a = false) :
    (l.filter q).find? p = none := by
  rw [List.find?_eq_none]
  intro x hx hpx
  have hq := (List.mem_filter.mp hx).2
  rw [h x hpx] at hq
  exact Bool.false_ne_true hq

theorem find?_append_left_none {α : Type} (p : α → Bool) (l₁ l₂ : List α)
    (h : l₁.find? p = none) : (l₁ ++ l₂).find? p = l₂.find? p := by
  rw [List.find?_append, h, Option.none_or]

theorem buildRolls_length (mid : Nat) (qs : List ℚ) :
    ∀ s, (buildRolls s mid qs).length = qs.length := by
  induction qs with
  | nil => intro s; rfl
  | cons q t ih => intro s; simp [buildRolls, ih]

theorem buildRolls_material (mid : Nat) (qs : List ℚ) :
    ∀ s, ∀ r ∈ buildRolls s mid qs, r.material_id = mid := by
  induction qs with
  | nil => intro s r hr; simp [buildRolls] at hr
  | cons q t ih =>
    intro s r hr
    rcases List.mem_cons.mp hr with h | h
    · rw [h]
    · exact ih (s + 1) r h

theorem buildRolls_quantities (mid : Nat) (qs : List ℚ) :
    ∀ s, (buildRolls s mid qs).map (fun r => r.quantity) = qs := by
  induction qs with
  | nil => intro s; rfl
  | cons q t ih => intro s; simp [buildRolls, ih]

/- Concrete sample rows used by the witnesses. -/

/-- Claim C2: for every Material and requested quantity, add_sale (recordSale)
fails with the insufficient-stock error whenever the requested quantity
exceeds the material's total_quantity, and on that failure the whole store is
returned unchanged: total_quantity keeps its value, no Sale row is inserted,
and no other state is touched. -/
theorem C2_insufficient_stock (logOk : Bool) (db : DB) (req : SaleReq) (m : Material)
    (hm : findMaterial db req.material_id = some m)
    (hq : m.total_quantity < req.quantity_sold) :
    add_sale logOk db req = (.err 400 "Insufficient stock", db) := by
  simp [add_sale, hm, hq]

theorem C2_insufficient_stock_witness :
    findMaterial dbA 1 = some matA ∧ matA.total_quantity < (20 : ℚ) ∧
    add_sale true dbA ⟨1, none, 20, 5, none⟩ = (.err 400 "Insufficient stock", dbA) :=
  ⟨rfl, by decide,
   C2_insufficient_stock true dbA ⟨1, none, 20, 5, none⟩ matA rfl (by decide)⟩

/-- Claim C4: calling add_material (registerMaterial) twice with an identical
(name, type, supplier) tuple yields exactly one stored Material matching that
tuple and the duplicate-material failure on the second call; the successful
first call creates the Material with total_quantity = 0 and appends an ADD
log entry for it. -/
theorem C4_register_material_twice (db : DB) (req : MaterialReq)
    (h : findMaterialByNameTypeSupplier db req.name req.type req.supplier = none) :
    (add_material true db req).1
      = .created "Material added successfully!" db.nextMaterialId ∧
    (add_material true db req).2.materials = db.materials ++ [newMaterial db req] ∧
    (newMaterial db req).total_quantity = 0 ∧
    ((add_material true db req).2.materials.filter
      (fun m => m.name == req.name && m.type == req.type
        && m.supplier == req.supplier)).length = 1 ∧
    (∃ e, (add_material true db req).2.logs = db.logs ++ [e] ∧
      e.action_type = "ADD" ∧ e.table_name = "materials" ∧
      e.record_id = db.nextMaterialId) ∧
    add_material true (add_material true db req).2 req
      = (.err 400 "Material already exists, use /api/add_rolls instead",
         (add_material true db req).2) := by
  have hfilter : db.materials.filter
      (fun m => m.name == req.name && m.type == req.type
        && m.supplier == req.supplier) = [] :=
    List.filter_eq_nil_iff.mpr (List.find?_eq_none.mp h)
  have hmats : (add_material true db req).2.materials
      = db.materials ++ [newMaterial db req] := by
    simp [add_material, h, withLog, log_activity, newMaterial]
  have hfind2 : findMaterialByNameTypeSupplier (add_material true db req).2
      req.name req.type req.supplier = some (newMaterial db req) := by
    unfold findMaterialByNameTypeSupplier
    rw [hmats, find?_append_left_none _ _ _ h]
    simp [List.find?, newMaterial]
  refine ⟨by simp [add_material, h, withLog, log_activity],
          hmats, rfl, ?_, ?_, ?_⟩
  · rw [hmats, List.filter_append, hfilter]
    simp [List.filter, newMaterial]
  · have hlogs : (add_material true db req).2.logs
        = db.logs ++ [logEntry db "ADD" "materials" db.nextMaterialId req.toJx] := by
      simp [add_material, h, withLog, log_activity, logEntry]
    exact ⟨_, hlogs, rfl, rfl, rfl⟩
  · revert hfind2
    generalize (add_material true db req).2 = d1
    intro hfind2
    simp [add_material, hfind2]

theorem C4_register_material_twice_witness :
    (add_material true DB.empty ⟨"A", "enli", none, "S"⟩).1
      = .created "Material added successfully!" DB.empty.nextMaterialId ∧
    ((add_material true DB.empty ⟨"A", "enli", none, "S"⟩).2.materials.filter
      (fun m => m.name == "A" && m.type == "enli" && m.supplier == "S")).length = 1 ∧
    add_material true (add_material true DB.empty ⟨"A", "enli", none, "S"⟩).2
        ⟨"A", "enli", none, "S"⟩
      = (.err 400 "Material already exists, use /api/add_rolls instead",
         (add_material true DB.empty ⟨"A", "enli", none, "S"⟩).2) := by
  have h := C4_register_material_twice DB.empty ⟨"A", "enli", none, "S"⟩ rfl
  exact ⟨h.1, h.2.2.2.1, h.2.2.2.2.2⟩

/-- Claim C7: for every existing Material (looked up by name and type, as the
source does), a successful add_rolls call creates exactly one Roll per value
of the quantities sequence, each referencing that Material, appends a single
ADD log entry summarizing the batch, and leaves the materials table — hence
the Material's total_quantity and every other Material field — unchanged. -/
theorem C7_add_rolls_frame (db : DB) (req : RollsReq) (m : Material)
    (hm : findMaterialByNameType db req.name req.type = some m) :
    (add_rolls true db req).1 = .created "rolls added successfully!" m.id ∧
    (add_rolls true db req).2.materials = db.materials ∧
    (add_rolls true db req).2.rolls
      = db.rolls ++ buildRolls db.nextRollId m.id req.quantities ∧
    (buildRolls db.nextRollId m.id req.quantities).length
      = req.quantities.length ∧
    (∀ r ∈ buildRolls db.nextRollId m.id req.quantities, r.material_id = m.id) ∧
    (buildRolls db.nextRollId m.id req.quantities).map (fun r => r.quantity)
      = req.quantities ∧
    (add_rolls true db req).2.logs = db.logs ++
      [logEntry db "ADD" "material_rolls" m.id
        (Jx.obj [("added_rolls", Jx.arr (req.quantities.map Jx.num))])] := by
  refine ⟨?_, ?_, ?_, buildRolls_length m.id req.quantities db.nextRollId,
    buildRolls_material m.id req.quantities db.nextRollId,
    buildRolls_quantities m.id req.quantities db.nextRollId, ?_⟩ <;>
    simp [add_rolls, hm, withLog, log_activity, logEntry]

theorem C7_add_rolls_frame_witness :
    (add_rolls true dbA ⟨"A", "enli", [5, 7]⟩).2.materials = dbA.materials ∧
    (add_rolls true dbA ⟨"A", "enli", [5, 7]⟩).2.rolls
      = dbA.rolls ++ buildRolls dbA.nextRollId matA.id [5, 7] ∧
    (buildRolls dbA.nextRollId matA.id [5, 7]).length
      = ([5, 7] : List ℚ).length := by
  have h := C7_add_rolls_frame dbA ⟨"A", "enli", [5, 7]⟩ matA rfl
  exact ⟨h.2.1, h.2.2.1, h.2.2.2.1⟩

/-- Claim C8 counterexample: delete_material cannot delete every existing
Material: when a Sale still references the material, the flush's attempt to
null the NOT NULL sale.material_id column raises IntegrityError, the request
answers 500, and the store is unchanged — the material, its rolls and the
sale all survive and no DELETE entry is logged. Concretely, material 1 with
an outstanding sale of 3 is still present after the delete request. -/
theorem C8_delete_material_cex :
    findMaterial dbAS 1 = some matA7 ∧
    delete_material true dbAS 1 = (.err 500 "Internal server error", dbAS) ∧
    findMaterial (delete_material true dbAS 1).2 1 = some matA7 ∧
    (delete_material true dbAS 1).2.logs = dbAS.logs :=
  ⟨rfl, rfl, rfl, rfl⟩

/-- Claim C8 amended: for an existing Material that no Sale references,
delete_material removes every Roll owned by that Material and then the
Material itself, so that afterwards no Roll referencing the deleted Material
remains and the Material is gone, and it appends a DELETE log entry whose
payload is the material's name; for a non-existent id it fails with the
not-found error and leaves the store unchanged; and for an existing Material
that some Sale still references, the delete fails with a 500 (IntegrityError
on the NOT NULL sale.material_id) and the store is unchanged — full
rollback. -/
theorem C8_delete_material_no_sales (db : DB) (mid : Nat) :
    (∀ m, findMaterial db mid = some m →
      db.sales.any (fun s => s.material_id == mid) = false →
      (delete_material true db mid).1
        = .ok "Material and associated rolls deleted successfully" ∧
      (delete_material true db mid).2.rolls
        = db.rolls.filter (fun r => !(r.material_id == mid)) ∧
      (∀ r ∈ (delete_material true db mid).2.rolls, r.material_id ≠ mid) ∧
      findMaterial (delete_material true db mid).2 mid = none ∧
      (delete_material true db mid).2.logs = db.logs ++
        [logEntry db "DELETE" "materials" mid
          (Jx.obj [("deleted_material", Jx.str m.name)])]) ∧
    (findMaterial db mid = none → ∀ logOk,
      delete_material logOk db mid = (.err 404 "Material not found", db)) ∧
    (∀ m, findMaterial db mid = some m →
      db.sales.any (fun s => s.material_id == mid) = true → ∀ logOk,
      delete_material logOk db mid = (.err 500 "Internal server error", db)) := by
  refine ⟨?_, ?_, ?_⟩
  · intro m hm hsl
    have hm' : db.materials.find? (fun x => x.id == mid) = some m := hm
    have hid : m.id = mid := by simpa using List.find?_some hm'
    have hrolls : (delete_material true db mid).2.rolls
        = db.rolls.filter (fun r => !(r.material_id == mid)) := by
      simp [delete_material, hm, hid, hsl, withLog, log_activity]
    refine ⟨?_, hrolls, ?_, ?_, ?_⟩
    · simp [delete_material, hm, hid, hsl, withLog, log_activity]
    · intro r hr
      rw [hrolls] at hr
      simpa using (List.mem_filter.mp hr).2
    · have hmats : (delete_material true db mid).2.materials
          = db.materials.filter (fun x => !(x.id == mid)) := by
        simp [delete_material, hm, hid, hsl, withLog, log_activity]
      unfold findMaterial
      rw [hmats]
      refine find?_filter_none _ _ _ ?_
      intro a ha
      simp [ha]
    · simp [delete_material, hm, hid, hsl, withLog, log_activity, logEntry]
  · intro hnone logOk
    simp [delete_material, hnone]
  · intro m hm hsl logOk
    have hm' : db.materials.find? (fun x => x.id == mid) = some m := hm
    have hid : m.id = mid := by simpa using List.find?_some hm'
    simp [delete_material, hm, hid, hsl]

theorem C8_delete_material_no_sales_witness :
    (delete_material true dbAR 1).1
      = .ok "Material and associated rolls deleted successfully" ∧
    (∀ r ∈ (delete_material true dbAR 1).2.rolls, r.material_id ≠ 1) ∧
    findMaterial (delete_material true dbAR 1).2 1 = none ∧
    delete_material true dbAR 99 = (.err 404 "Material not found", dbAR) ∧
    delete_material true dbAS 1 = (.err 500 "Internal server error", dbAS) := by
  have h := C8_delete_material_no_sales dbAR 1
  have h2 := C8_delete_material_no_sales dbAR 99
  have h3 := C8_delete_material_no_sales dbAS 1
  exact ⟨(h.1 matA rfl rfl).1, (h.1 matA rfl rfl).2.2.1,
         (h.1 matA rfl rfl).2.2.2.1, h2.2.1 rfl true,
         h3.2.2 matA7 rfl rfl true⟩

/-- Claim C6: for every existing Sale whose Material row exists, edit_sale
(updateSale) succeeds with no sufficiency re-check — note the absence of any
hypothesis bounding the new quantity, which may exceed remaining stock — and
sets the owning Material's total_quantity to its prior value plus the sale's
current quantity_sold minus the new quantity (a pure delta), and updates the
sale's price when one is supplied. -/
theorem C6_edit_sale_delta (db : DB) (sid : Nat) (u : SaleUpdate)
    (s : Sale) (m : Material)
    (hs : findSale db sid = some s)
    (hm : findMaterial db s.material_id = some m) :
    (edit_sale true db sid u).1 = .ok "Sale updated successfully!" ∧
    matQty (edit_sale true db sid u).2 s.material_id
      = some (m.total_quantity + s.quantity_sold
          - u.quantity_sold.getD s.quantity_sold) ∧
    findSale (edit_sale true db sid u).2 sid
      = some { s with quantity_sold := u.quantity_sold.getD s.quantity_sold,
                      price := u.price.getD s.price } := by
  have hs' : db.sales.find? (fun x => x.id == sid) = some s := hs
  have hsid : s.id = sid := by simpa using List.find?_some hs'
  have hm' : db.materials.find? (fun x => x.id == s.material_id) = some m := hm
  have hmid : m.id = s.material_id := by simpa using List.find?_some hm'
  refine ⟨?_, ?_, ?_⟩
  · simp [edit_sale, hs, hm, withLog, log_activity]
  · have hmats : (edit_sale true db sid u).2.materials
        = db.materials.map (fun x => if x.id == s.material_id then
            { x with total_quantity := x.total_quantity + s.quantity_sold
                - u.quantity_sold.getD s.quantity_sold } else x) := by
      simp [edit_sale, hs, hm, withLog, log_activity]
    unfold matQty findMaterial
    rw [hmats]
    rw [find?_map_pred _ _ ?_ db.materials, hm']
    · simp [hmid]
    · intro a
      by_cases h : a.id = s.material_id <;> simp [h]
  · have hsales : (edit_sale true db sid u).2.sales
        = db.sales.map (fun x => if x.id == sid then
            { s with quantity_sold := u.quantity_sold.getD s.quantity_sold,
                     price := u.price.getD s.price } else x) := by
      simp [edit_sale, hs, hm, withLog, log_activity]
    unfold findSale
    rw [hsales]
    rw [find?_map_pred _ _ ?_ db.sales, hs']
    · simp [hsid]
    · intro a
      by_cases h : a.id = sid
      · simp [h, hsid]
      · simp [h]

theorem C6_edit_sale_delta_witness :
    (edit_sale true dbAS 1 ⟨some 50, some 9⟩).1 = .ok "Sale updated successfully!" ∧
    matQty (edit_sale true dbAS 1 ⟨some 50, some 9⟩).2 saleA.material_id
      = some (7 + 3 - 50 : ℚ) := by
  have h := C6_edit_sale_delta dbAS 1 ⟨some 50, some 9⟩ saleA matA7 rfl rfl
  exact ⟨h.1, h.2.1⟩

/-- Claim C10: add_sale (recordSale) never verifies that the referenced
customer exists: when customer_id matches no stored Customer and stock
suffices, the sale is still created with the dangling customer_id stored on
it, the stock is deducted exactly as for a walk-in sale, the customers table
is untouched (the debt update is silently skipped), and the call reports
success rather than any customer-not-found failure. -/
theorem C10_dangling_customer (db : DB) (req : SaleReq) (m : Material)
    (hm : findMaterial db req.material_id = some m)
    (hq : ¬ m.total_quantity < req.quantity_sold)
    (hc : req.customer_id.bind (fun cid => findCustomer db cid) = none) :
    (add_sale true db req).1 = .ok "Sale recorded successfully!" ∧
    (add_sale true db req).2.customers = db.customers ∧
    (add_sale true db req).2.sales = db.sales ++
      [{ id := db.nextSaleId, material_id := req.material_id,
         customer_id := req.customer_id, quantity_sold := req.quantity_sold,
         price := req.price }] ∧
    matQty (add_sale true db req).2 req.material_id
      = some (m.total_quantity - req.quantity_sold) := by
  have hm' : db.materials.find? (fun x => x.id == req.material_id) = some m := hm
  have hmid : m.id = req.material_id := by simpa using List.find?_some hm'
  refine ⟨?_, ?_, ?_, ?_⟩
  · simp [add_sale, hm, hq, hc, withLog, log_activity]
  · simp [add_sale, hm, hq, hc, withLog, log_activity]
  · simp [add_sale, hm, hq, hc, withLog, log_activity]
  · have hmats : (add_sale true db req).2.materials
        = db.materials.map (fun x => if x.id == req.material_id then
            { x with total_quantity := x.total_quantity - req.quantity_sold }
          else x) := by
      simp [add_sale, hm, hq, hc, withLog, log_activity]
    unfold matQty findMaterial
    rw [hmats]
    rw [find?_map_pred _ _ ?_ db.materials, hm']
    · simp [hmid]
    · intro a
      by_cases h : a.id = req.material_id <;> simp [h]

theorem C10_dangling_customer_witness :
    (add_sale true dbA ⟨1, some 42, 4, 6, some 100⟩).1
      = .ok "Sale recorded successfully!" ∧
    (add_sale true dbA ⟨1, some 42, 4, 6, some 100⟩).2.customers
      = dbA.customers ∧
    matQty (add_sale true dbA ⟨1, some 42, 4, 6, some 100⟩).2 1
      = some (10 - 4 : ℚ) := by
  have h := C10_dangling_customer dbA ⟨1, some 42, 4, 6, some 100⟩ matA rfl
    (by decide) rfl
  exact ⟨h.1, h.2.1, h.2.2.2⟩

/-- Claim C3 counterexample: add_sale commits the domain mutation before
log_activity runs in its own transaction, so when the audit append cannot be
written the request fails (HTTP 500) yet the stock deduction and the new Sale
row remain persisted and no audit entry exists — the domain mutation and the
audit append are not applied as one atomic unit. Concretely: material 1 has
stock 10, a sale of 3 with a failing log write leaves stock 10 - 3, a
persisted Sale row, and an empty log. -/
theorem C3_atomicity_cex :
    (add_sale false dbA ⟨1, none, 3, 5, none⟩).1.isSuccess = false ∧
    (add_sale false dbA ⟨1, none, 3, 5, none⟩).2.logs = [] ∧
    matQty (add_sale false dbA ⟨1, none, 3, 5, none⟩).2 1 = some (10 - 3 : ℚ) ∧
    (add_sale false dbA ⟨1, none, 3, 5, none⟩).2.sales
      = [{ id := 1, material_id := 1, customer_id := none,
           quantity_sold := 3, price := 5 }] :=
  ⟨rfl, rfl, rfl, rfl⟩

/-- Claim C3 amended: the domain mutation and the audit append are two
separate commits, domain first. For any add_sale whose domain phase succeeds,
a failing audit append leaves the stock deduction and the inserted Sale row
durably applied with the log unchanged while the request reports failure; a
succeeding audit append yields the identical domain state plus exactly one
appended log entry. -/
theorem C3_log_separate_commit (db : DB) (req : SaleReq) (m : Material)
    (hm : findMaterial db req.material_id = some m)
    (hq : ¬ m.total_quantity < req.quantity_sold) :
    (add_sale false db req).1.isSuccess = false ∧
    (add_sale false db req).2.logs = db.logs ∧
    (add_sale false db req).2.sales = db.sales ++
      [{ id := db.nextSaleId, material_id := req.material_id,
         customer_id := req.customer_id, quantity_sold := req.quantity_sold,
         price := req.price }] ∧
    matQty (add_sale false db req).2 req.material_id
      = some (m.total_quantity - req.quantity_sold) ∧
    (add_sale true db req).2.materials = (add_sale false db req).2.materials ∧
    (add_sale true db req).2.sales = (add_sale false db req).2.sales ∧
    (add_sale true db req).2.customers = (add_sale false db req).2.customers ∧
    (add_sale true db req).2.logs.length = db.logs.length + 1 := by
  have hm' : db.materials.find? (fun x => x.id == req.material_id) = some m := hm
  have hmid : m.id = req.material_id := by simpa using List.find?_some hm'
  have hmats : (add_sale false db req).2.materials
      = db.materials.map (fun x => if x.id == req.material_id then
          { x with total_quantity := x.total_quantity - req.quantity_sold }
        else x) := by
    rcases hcase : req.customer_id.bind (fun cid => findCustomer db cid) with _ | c
    · simp [add_sale, hm, hq, hcase, withLog, log_activity]
    · rcases hdue : req.amount_due with _ | a <;>
        simp [add_sale, hm, hq, hcase, hdue, withLog, log_activity]
  have hfindm : (add_sale false db req).2.materials.find?
        (fun x => x.id == req.material_id)
      = some { m with total_quantity := m.total_quantity - req.quantity_sold } := by
    rw [hmats]
    rw [find?_map_pred _ _ ?_ db.materials, hm']
    · simp [hmid]
    · intro a
      by_cases h : a.id = req.material_id <;> simp [h]
  refine ⟨?_, ?_, ?_, by simp [matQty, findMaterial, hfindm], ?_, ?_, ?_, ?_⟩
  all_goals
    rcases hcase : req.customer_id.bind (fun cid => findCustomer db cid) with _ | c
    · simp [add_sale, hm, hq, hcase, withLog, log_activity, ApiResult.isSuccess]
    · rcases hdue : req.amount_due with _ | a <;>
        simp [add_sale, hm, hq, hcase, hdue, withLog, log_activity,
          ApiResult.isSuccess]

theorem C3_log_separate_commit_witness :
    (add_sale false dbA ⟨1, none, 3, 5, none⟩).1.isSuccess = false ∧
    (add_sale false dbA ⟨1, none, 3, 5, none⟩).2.logs = dbA.logs ∧
    matQty (add_sale false dbA ⟨1, none, 3, 5, none⟩).2 1 = some (10 - 3 : ℚ) ∧
    (add_sale true dbA ⟨1, none, 3, 5, none⟩).2.logs.length
      = dbA.logs.length + 1 := by
  have h := C3_log_separate_commit dbA ⟨1, none, 3, 5, none⟩ matA rfl (by decide)
  exact ⟨h.1, h.2.1, h.2.2.2.1, h.2.2.2.2.2.2.2⟩

/-- Claim C5 counterexample: a successful add_rolls appends one log entry
whose record_id is the owning material's id, not the id of any record the
operation mutated. In a store with materials 1 and 2 and no rolls, adding one
roll to material "B" (id 2) creates exactly the roll with id 1 and leaves the
materials table unchanged, yet the single log entry carries table_name
"material_rolls" with record_id 2 — and no roll with id 2 exists at all. -/
theorem C5_log_target_cex :
    (add_rolls true dbAB ⟨"B", "enli", [5]⟩).1.isSuccess = true ∧
    (add_rolls true dbAB ⟨"B", "enli", [5]⟩).2.rolls
      = [{ id := 1, material_id := 2, quantity := 5 }] ∧
    (add_rolls true dbAB ⟨"B", "enli", [5]⟩).2.materials = dbAB.materials ∧
    (add_rolls true dbAB ⟨"B", "enli", [5]⟩).2.logs
      = [logEntry dbAB "ADD" "material_rolls" 2
          (Jx.obj [("added_rolls", Jx.arr ([(5 : ℚ)].map Jx.num))])] ∧
    (∀ r ∈ (add_rolls true dbAB ⟨"B", "enli", [5]⟩).2.rolls, r.id ≠ 2) :=
  ⟨rfl, rfl, rfl, rfl, by decide⟩

/-- Claim C5 amended: every successful mutating operation (with the audit
append succeeding) appends exactly one new ActivityLog entry, and that
entry's action kind, table_name and record_id are exactly those of
expectedLogTarget — the mutated record's own table and id for every
operation except add_rolls, whose entry carries the owning Material's id
rather than the id of any created Roll. -/
theorem C5_log_per_op (db : DB) (op : Op)
    (hsucc : ((applyOp true db op).1).isSuccess = true) :
    ∃ e t, (applyOp true db op).2.logs = db.logs ++ [e] ∧
      expectedLogTarget db op = some t ∧
      (e.action_type, e.table_name, e.record_id) = t := by
  cases op with
  | addMaterial req =>
    rcases hf : findMaterialByNameTypeSupplier db req.name req.type req.supplier
      with _ | m
    · refine ⟨logEntry db "ADD" "materials" db.nextMaterialId req.toJx,
        ("ADD", "materials", db.nextMaterialId), ?_, rfl, rfl⟩
      simp [applyOp, add_material, hf, withLog, log_activity, logEntry]
    · exfalso
      simp [applyOp, add_material, hf, ApiResult.isSuccess] at hsucc
  | addRolls req =>
    rcases hf : findMaterialByNameType db req.name req.type with _ | m
    · exfalso
      simp [applyOp, add_rolls, hf, ApiResult.isSuccess] at hsucc
    · refine ⟨logEntry db "ADD" "material_rolls" m.id
          (Jx.obj [("added_rolls", Jx.arr (req.quantities.map Jx.num))]),
        ("ADD", "material_rolls", m.id), ?_, ?_, rfl⟩
      · simp [applyOp, add_rolls, hf, withLog, log_activity, logEntry]
      · simp [expectedLogTarget, hf]
  | deleteMaterial i =>
    rcases hf : findMaterial db i with _ | m
    · exfalso
      simp [applyOp, delete_material, hf, ApiResult.isSuccess] at hsucc
    · by_cases hsl : db.sales.any (fun s => s.material_id == m.id)
      · exfalso
        simp [applyOp, delete_material, hf, hsl, ApiResult.isSuccess] at hsucc
      · refine ⟨logEntry db "DELETE" "materials" i
            (Jx.obj [("deleted_material", Jx.str m.name)]),
          ("DELETE", "materials", i), ?_, rfl, rfl⟩
        simp [applyOp, delete_material, hf, hsl, withLog, log_activity, logEntry]
  | deleteRoll i =>
    rcases hf : findRoll db i with _ | r
    · exfalso
      simp [applyOp, delete_roll, hf, ApiResult.isSuccess] at hsucc
    · refine ⟨logEntry db "DELETE" "material_rolls" i
          (Jx.obj [("deleted_roll",
            Jx.obj [("material_id", Jx.num r.material_id),
                    ("quantity", Jx.num r.quantity)])]),
        ("DELETE", "material_rolls", i), ?_, rfl, rfl⟩
      simp [applyOp, delete_roll, hf, withLog, log_activity, logEntry]
  | updateRoll i q =>
    rcases hf : findRoll db i with _ | r
    · exfalso
      simp [applyOp, update_roll, hf, ApiResult.isSuccess] at hsucc
    · refine ⟨logEntry db "UPDATE" "material_rolls" i
          (Jx.obj [("before", Jx.obj [("quantity", Jx.num r.quantity)]),
                   ("after", Jx.obj [("quantity", Jx.num q)])]),
        ("UPDATE", "material_rolls", i), ?_, rfl, rfl⟩
      simp [applyOp, update_roll, hf, withLog, log_activity, logEntry]
  | addCustomer req =>
    refine ⟨logEntry db "ADD" "customers" db.nextCustomerId
        (Jx.obj [("name", Jx.str req.name), ("contact", Jx.str req.contact)]),
      ("ADD", "customers", db.nextCustomerId), ?_, rfl, rfl⟩
    simp [applyOp, add_customer, withLog, log_activity, logEntry]
  | editCustomer i u =>
    rcases hf : findCustomer db i with _ | c
    · exfalso
      simp [applyOp, edit_customer, hf, ApiResult.isSuccess] at hsucc
    · have hc' : db.customers.find? (fun x => x.id == i) = some c := hf
      have hcid : c.id = i := by simpa using List.find?_some hc'
      refine ⟨logEntry db "UPDATE" "customers" c.id
          (Jx.obj [("before", Jx.obj [("name", Jx.str c.name),
            ("contact", Jx.str c.contact), ("debt", Jx.num c.debt)]),
            ("after", u.toJx)]),
        ("UPDATE", "customers", i), ?_, rfl, ?_⟩
      · simp [applyOp, edit_customer, hf, withLog, log_activity, logEntry]
      · simp [logEntry, hcid]
  | deleteCustomer i =>
    rcases hf : findCustomer db i with _ | c
    · exfalso
      simp [applyOp, delete_customer, hf, ApiResult.isSuccess] at hsucc
    · refine ⟨logEntry db "DELETE" "customers" i
          (Jx.obj [("deleted_customer",
            Jx.obj [("name", Jx.str c.name),
                    ("contact", Jx.str c.contact)])]),
        ("DELETE", "customers", i), ?_, rfl, rfl⟩
      simp [applyOp, delete_customer, hf, withLog, log_activity, logEntry]
  | addSale req =>
    rcases hm : findMaterial db req.material_id with _ | m
    · exfalso
      simp [applyOp, add_sale, hm, ApiResult.isSuccess] at hsucc
    · by_cases hq : m.total_quantity < req.quantity_sold
      · exfalso
        simp [applyOp, add_sale, hm, hq, ApiResult.isSuccess] at hsucc
      · refine ⟨logEntry db "SALE" "sales" db.nextSaleId
            (Jx.obj [("material_id", Jx.num req.material_id),
                     ("customer_id", optNumJx req.customer_id),
                     ("quantity_sold", Jx.num req.quantity_sold),
                     ("price", Jx.num req.price)]),
          ("SALE", "sales", db.nextSaleId), ?_, rfl, rfl⟩
        rcases hcase : req.customer_id.bind (fun cid => findCustomer db cid)
          with _ | c
        · simp [applyOp, add_sale, hm, hq, hcase, withLog, log_activity, logEntry]
        · rcases hdue : req.amount_due with _ | a <;>
            simp [applyOp, add_sale, hm, hq, hcase, hdue, withLog,
              log_activity, logEntry]
  | editSale i u =>
    rcases hs : findSale db i with _ | s
    · exfalso
      simp [applyOp, edit_sale, hs, ApiResult.isSuccess] at hsucc
    · rcases hm : findMaterial db s.material_id with _ | m
      · exfalso
        simp [applyOp, edit_sale, hs, hm, ApiResult.isSuccess] at hsucc
      · have hs' : db.sales.find? (fun x => x.id == i) = some s := hs
        have hsid : s.id = i := by simpa using List.find?_some hs'
        refine ⟨logEntry db "UPDATE" "sales" s.id
            (Jx.obj [("before",
              Jx.obj [("quantity_sold", Jx.num s.quantity_sold),
                      ("price", Jx.num s.price)]),
              ("after", u.toJx)]),
          ("UPDATE", "sales", i), ?_, rfl, ?_⟩
        · simp [applyOp, edit_sale, hs, hm, withLog, log_activity, logEntry]
        · simp [logEntry, hsid]
  | deleteSale i =>
    rcases hs : findSale db i with _ | s
    · exfalso
      simp [applyOp, delete_sale, hs, ApiResult.isSuccess] at hsucc
    · rcases hm : findMaterial db s.material_id with _ | m
      · exfalso
        simp [applyOp, delete_sale, hs, hm, ApiResult.isSuccess] at hsucc
      · refine ⟨logEntry db "DELETE" "sales" i
            (Jx.obj [("deleted_sale",
              Jx.obj [("material_id", Jx.num s.material_id),
                      ("customer_id", optNumJx s.customer_id),
                      ("quantity_sold", Jx.num s.quantity_sold),
                      ("price", Jx.num s.price)])]),
          ("DELETE", "sales", i), ?_, rfl, rfl⟩
        simp [applyOp, delete_sale, hs, hm, withLog, log_activity, logEntry]

theorem C5_log_per_op_witness :
    ∃ e t, (applyOp true dbAB (Op.addRolls ⟨"B", "enli", [5]⟩)).2.logs
        = dbAB.logs ++ [e] ∧
      expectedLogTarget dbAB (Op.addRolls ⟨"B", "enli", [5]⟩) = some t ∧
      (e.action_type, e.table_name, e.record_id) = t :=
  C5_log_per_op dbAB (Op.addRolls ⟨"B", "enli", [5]⟩) rfl

/- Effect of a successful add_sale on the sales and materials tables. -/
theorem add_sale_state_true (db : DB) (req : SaleReq) (m : Material)
    (hm : findMaterial db req.material_id = some m)
    (hq : ¬ m.total_quantity < req.quantity_sold) :
    (add_sale true db req).2.sales = db.sales ++
      [{ id := db.nextSaleId, material_id := req.material_id,
         customer_id := req.customer_id, quantity_sold := req.quantity_sold,
         price := req.price }] ∧
    (add_sale true db req).2.materials
      = db.materials.map (fun x => if x.id == req.material_id then
          { x with total_quantity := x.total_quantity - req.quantity_sold }
        else x) := by
  constructor <;>
  · rcases hcase : req.customer_id.bind (fun cid => findCustomer db cid) with _ | c
    · simp [add_sale, hm, hq, hcase, withLog, log_activity]
    · rcases hdue : req.amount_due with _ | a <;>
        simp [add_sale, hm, hq, hcase, hdue, withLog, log_activity]

/- Effect of edit_sale on the tracked sale and its material's stock. -/
theorem edit_sale_state (d : DB) (sid : Nat) (u : SaleUpdate)
    (s : Sale) (md : Material)
    (hs : findSale d sid = some s)
    (hm : findMaterial d s.material_id = some md) :
    findSale (edit_sale true d sid u).2 sid
      = some { s with quantity_sold := u.quantity_sold.getD s.quantity_sold,
                      price := u.price.getD s.price } ∧
    matQty (edit_sale true d sid u).2 s.material_id
      = some (md.total_quantity + s.quantity_sold
          - u.quantity_sold.getD s.quantity_sold) := by
  have hs' : d.sales.find? (fun x => x.id == sid) = some s := hs
  have hsid : s.id = sid := by simpa using List.find?_some hs'
  have hm' : d.materials.find? (fun x => x.id == s.material_id) = some md := hm
  have hmid : md.id = s.material_id := by simpa using List.find?_some hm'
  constructor
  · have hsales : (edit_sale true d sid u).2.sales
        = d.sales.map (fun x => if x.id == sid then
            { s with quantity_sold := u.quantity_sold.getD s.quantity_sold,
                     price := u.price.getD s.price } else x) := by
      simp [edit_sale, hs, hm, withLog, log_activity]
    unfold findSale
    rw [hsales]
    rw [find?_map_pred _ _ ?_ d.sales, hs']
    · simp [hsid]
    · intro a
      by_cases h : a.id = sid
      · simp [h, hsid]
      · simp [h]
  · have hmats : (edit_sale true d sid u).2.materials
        = d.materials.map (fun x => if x.id == s.material_id then
            { x with total_quantity := x.total_quantity + s.quantity_sold
                - u.quantity_sold.getD s.quantity_sold } else x) := by
      simp [edit_sale, hs, hm, withLog, log_activity]
    unfold matQty findMaterial
    rw [hmats]
    rw [find?_map_pred _ _ ?_ d.materials, hm']
    · simp [hmid]
    · intro a
      by_cases h : a.id = s.material_id <;> simp [h]

/- Effect of delete_sale on the material's stock. -/
theorem delete_sale_matQty (d : DB) (sid : Nat) (s : Sale) (md : Material)
    (hs : findSale d sid = some s)
    (hm : findMaterial d s.material_id = some md) :
    matQty (delete_sale true d sid).2 s.material_id
      = some (md.total_quantity + s.quantity_sold) := by
  have hm' : d.materials.find? (fun x => x.id == s.material_id) = some md := hm
  have hmid : md.id = s.material_id := by simpa using List.find?_some hm'
  have hmats : (delete_sale true d sid).2.materials
      = d.materials.map (fun x => if x.id == s.material_id then
          { x with total_quantity := x.total_quantity + s.quantity_sold }
        else x) := by
    simp [delete_sale, hs, hm, withLog, log_activity]
  unfold matQty findMaterial
  rw [hmats]
  rw [find?_map_pred _ _ ?_ d.materials, hm']
  · simp [hmid]
  · intro a
    by_cases h : a.id = s.material_id <;> simp [h]

/-- Claim C1: a full Sale lifecycle on one Material — a successful add_sale,
then any number N of edit_sale calls on that sale (all of which succeed,
since the sale and material exist throughout), then delete_sale — is
stock-neutral: the material's total_quantity after the delete equals its
value before the sale was recorded. The freshness hypothesis says the
autoincrement sale id is not already in use, as the database guarantees. -/
theorem C1_sale_lifecycle_stock_neutral (db : DB) (req : SaleReq)
    (us : List SaleUpdate) (m : Material)
    (hm : findMaterial db req.material_id = some m)
    (hq : ¬ m.total_quantity < req.quantity_sold)
    (hfresh : ∀ s ∈ db.sales, s.id ≠ db.nextSaleId) :
    matQty (delete_sale true
        (us.foldl (fun d u => (edit_sale true d db.nextSaleId u).2)
          (add_sale true db req).2) db.nextSaleId).2 req.material_id
      = matQty db req.material_id := by
  have hm' : db.materials.find? (fun x => x.id == req.material_id) = some m := hm
  have hmid : m.id = req.material_id := by simpa using List.find?_some hm'
  have hstep : ∀ (d : DB) (u : SaleUpdate),
      (∃ s : Sale, findSale d db.nextSaleId = some s ∧
        s.material_id = req.material_id ∧
        matQty d req.material_id
          = some (m.total_quantity - s.quantity_sold)) →
      (∃ s : Sale,
        findSale (edit_sale true d db.nextSaleId u).2 db.nextSaleId = some s ∧
        s.material_id = req.material_id ∧
        matQty (edit_sale true d db.nextSaleId u).2 req.material_id
          = some (m.total_quantity - s.quantity_sold)) := by
    rintro d u ⟨s, hs, hsm, hq2⟩
    have hq2' : (findMaterial d req.material_id).map (fun x => x.total_quantity)
        = some (m.total_quantity - s.quantity_sold) := hq2
    rcases Option.map_eq_some'.mp hq2' with ⟨md, hmd, hmdtot⟩
    have heff := edit_sale_state d db.nextSaleId u s md hs (by rw [hsm]; exact hmd)
    refine ⟨updatedSale s u, heff.1, hsm, ?_⟩
    have h2 := heff.2
    rw [hsm] at h2
    rw [h2]
    have harith : md.total_quantity + s.quantity_sold
        - u.quantity_sold.getD s.quantity_sold
        = m.total_quantity - u.quantity_sold.getD s.quantity_sold := by
      rw [hmdtot]; ring
    rw [harith]
    rfl
  have hmain : ∀ (l : List SaleUpdate) (d : DB),
      (∃ s : Sale, findSale d db.nextSaleId = some s ∧
        s.material_id = req.material_id ∧
        matQty d req.material_id
          = some (m.total_quantity - s.quantity_sold)) →
      (∃ s : Sale,
        findSale (l.foldl (fun d u => (edit_sale true d db.nextSaleId u).2) d)
          db.nextSaleId = some s ∧
        s.material_id = req.material_id ∧
        matQty (l.foldl (fun d u => (edit_sale true d db.nextSaleId u).2) d)
          req.material_id = some (m.total_quantity - s.quantity_sold)) := by
    intro l
    induction l with
    | nil => intro d h; exact h
    | cons u t ih => intro d h; exact ih _ (hstep d u h)
  have hst := add_sale_state_true db req m hm hq
  have h0 : ∃ s : Sale,
      findSale (add_sale true db req).2 db.nextSaleId = some s ∧
      s.material_id = req.material_id ∧
      matQty (add_sale true db req).2 req.material_id
        = some (m.total_quantity - s.quantity_sold) := by
    refine ⟨newSaleRow db req, ?_, rfl, ?_⟩
    · unfold findSale
      rw [hst.1]
      rw [find?_append_left_none _ _ _ ?_]
      · simp [List.find?, newSaleRow]
      · rw [List.find?_eq_none]
        intro x hx
        simp [hfresh x hx]
    · unfold matQty findMaterial
      rw [hst.2]
      rw [find?_map_pred _ _ ?_ db.materials, hm']
      · simp [hmid, newSaleRow]
      · intro a
        by_cases h : a.id = req.material_id <;> simp [h]
  rcases hmain us _ h0 with ⟨s, hs2, hsm2, hq3⟩
  have hq3' : (findMaterial
        (us.foldl (fun d u => (edit_sale true d db.nextSaleId u).2)
          (add_sale true db req).2) req.material_id).map
      (fun x => x.total_quantity)
      = some (m.total_quantity - s.quantity_sold) := hq3
  rcases Option.map_eq_some'.mp hq3' with ⟨md, hmd, hmdtot⟩
  have hdel := delete_sale_matQty _ db.nextSaleId s md hs2 (by rw [hsm2]; exact hmd)
  rw [hsm2] at hdel
  rw [hdel]
  have hrhs : matQty db req.material_id = some m.total_quantity := by
    unfold matQty findMaterial
    rw [hm']
    rfl
  rw [hrhs]
  have : md.total_quantity + s.quantity_sold = m.total_quantity := by
    rw [hmdtot]; ring
  rw [this]

theorem C1_sale_lifecycle_stock_neutral_witness :
    matQty (delete_sale true
        (([⟨some 5, none⟩] : List SaleUpdate).foldl
          (fun d u => (edit_sale true d dbA.nextSaleId u).2)
          (add_sale true dbA ⟨1, none, 3, 5, none⟩).2) dbA.nextSaleId).2 1
      = matQty dbA 1 :=
  C1_sale_lifecycle_stock_neutral dbA ⟨1, none, 3, 5, none⟩ [⟨some 5, none⟩]
    matA rfl (by decide) (by decide)

theorem withLog_customers (logOk : Bool) (d : DB) (a t : String) (rid : Nat)
    (c : Jx) (res : ApiResult) :
    (withLog logOk d a t rid c res).2.customers = d.customers := by
  cases logOk <;> simp [withLog, log_activity]

theorem debt_eq_of_customers_eq {d d' : DB} (h : d'.customers = d.customers)
    {cid : Nat} {c c' : Customer} (hc : findCustomer d cid = some c)
    (hc' : findCustomer d' cid = some c') : c'.debt = c.debt := by
  unfold findCustomer at hc hc'
  rw [h, hc] at hc'
  cases hc'
  rfl

/-- Claim C9: every Customer's debt starts at zero on creation (add_customer
inserts the row with debt 0); every mutating operation other than add_sale
preserves the debt of every surviving customer — in particular edit_customer
rewrites only name and contact, leaving every customer's id, debt and
location untouched; and add_sale adds exactly amount_due to the referenced
customer's debt when that customer exists and amount_due is supplied, while
leaving the customers table unchanged when the customer is absent or no
amount_due is given. -/
theorem C9_debt_invariant (logOk : Bool) (db : DB) :
    (∀ req : CustomerReq, (add_customer logOk db req).2.customers
        = db.customers ++ [newCustomerRow db req]) ∧
    (∀ req : CustomerReq, (newCustomerRow db req).debt = 0) ∧
    (∀ (cid : Nat) (u : CustomerUpdate),
      ((edit_customer logOk db cid u).2).customers.map
          (fun c => (c.id, c.debt, c.location))
        = db.customers.map (fun c => (c.id, c.debt, c.location))) ∧
    (∀ op : Op, (∀ r, op ≠ Op.addSale r) → ∀ (cid : Nat) (c c' : Customer),
        findCustomer db cid = some c →
        findCustomer (applyOp logOk db op).2 cid = some c' →
        c'.debt = c.debt) ∧
    (∀ (req : SaleReq) (c : Customer) (a : ℚ) (m : Material),
        req.customer_id.bind (fun i => findCustomer db i) = some c →
        req.amount_due = some a →
        findMaterial db req.material_id = some m →
        ¬ m.total_quantity < req.quantity_sold →
        (add_sale logOk db req).2.customers
          = db.customers.map (fun x => if x.id == c.id then
              { x with debt := x.debt + a } else x)) ∧
    (∀ req : SaleReq, req.customer_id.bind (fun i => findCustomer db i) = none →
        (add_sale logOk db req).2.customers = db.customers) ∧
    (∀ req : SaleReq, req.amount_due = none →
        (add_sale logOk db req).2.customers = db.customers) := by
  refine ⟨?_, ?_, ?_, ?_, ?_, ?_, ?_⟩
  · intro req
    simp [add_customer, withLog_customers, newCustomerRow]
  · intro req
    rfl
  · intro cid u
    rcases hf : findCustomer db cid with _ | tc
    · simp [edit_customer, hf]
    · have hcust : ((edit_customer logOk db cid u).2).customers
          = db.customers.map (fun x => if x.id == tc.id then
              { x with name := u.name.getD x.name,
                       contact := u.contact.getD x.contact } else x) := by
        simp [edit_customer, hf, withLog_customers]
      rw [hcust, List.map_map]
      refine List.map_congr_left ?_
      intro a _
      by_cases h : a.id = tc.id <;> simp [h]
  · intro op hop cid c c' hc hc'
    cases op with
    | addMaterial req =>
      refine debt_eq_of_customers_eq ?_ hc hc'
      rcases hf : findMaterialByNameTypeSupplier db req.name req.type req.supplier
        with _ | x <;> simp [applyOp, add_material, hf, withLog_customers]
    | addRolls req =>
      refine debt_eq_of_customers_eq ?_ hc hc'
      rcases hf : findMaterialByNameType db req.name req.type with _ | x <;>
        simp [applyOp, add_rolls, hf, withLog_customers]
    | deleteMaterial i =>
      refine debt_eq_of_customers_eq ?_ hc hc'
      rcases hf : findMaterial db i with _ | x
      · simp [applyOp, delete_material, hf]
      · by_cases hsl : db.sales.any (fun s => s.material_id == x.id) <;>
          simp [applyOp, delete_material, hf, hsl, withLog_customers]
    | deleteRoll i =>
      refine debt_eq_of_customers_eq ?_ hc hc'
      rcases hf : findRoll db i with _ | x <;>
        simp [applyOp, delete_roll, hf, withLog_customers]
    | updateRoll i q =>
      refine debt_eq_of_customers_eq ?_ hc hc'
      rcases hf : findRoll db i with _ | x <;>
        simp [applyOp, update_roll, hf, withLog_customers]
    | editSale i u =>
      refine debt_eq_of_customers_eq ?_ hc hc'
      rcases hf : findSale db i with _ | s
      · simp [applyOp, edit_sale, hf]
      · rcases hg : findMaterial db s.material_id with _ | x <;>
          simp [applyOp, edit_sale, hf, hg, withLog_customers]
    | deleteSale i =>
      refine debt_eq_of_customers_eq ?_ hc hc'
      rcases hf : findSale db i with _ | s
      · simp [applyOp, delete_sale, hf]
      · rcases hg : findMaterial db s.material_id with _ | x <;>
          simp [applyOp, delete_sale, hf, hg, withLog_customers]
    | addSale req => exact absurd rfl (hop req)
    | addCustomer req =>
      have hcust : (applyOp logOk db (Op.addCustomer req)).2.customers
          = db.customers ++ [newCustomerRow db req] := by
        simp [applyOp, add_customer, withLog_customers, newCustomerRow]
      have hcform : db.customers.find? (fun x => x.id == cid) = some c := hc
      have hfind : findCustomer (applyOp logOk db (Op.addCustomer req)).2 cid
          = some c := by
        unfold findCustomer
        rw [hcust, List.find?_append, hcform]
        rfl
      rw [hfind] at hc'
      cases hc'
      rfl
    | editCustomer i u =>
      rcases hf : findCustomer db i with _ | tc
      · refine debt_eq_of_customers_eq ?_ hc hc'
        simp [applyOp, edit_customer, hf]
      · have hcust : (applyOp logOk db (Op.editCustomer i u)).2.customers
            = db.customers.map (fun x => if x.id == tc.id then
                { x with name := u.name.getD x.name,
                         contact := u.contact.getD x.contact } else x) := by
          simp [applyOp, edit_customer, hf, withLog_customers]
        have hcform : db.customers.find? (fun x => x.id == cid) = some c := hc
        have hfind : findCustomer (applyOp logOk db (Op.editCustomer i u)).2 cid
            = (db.customers.find? (fun x => x.id == cid)).map
                (fun x => if x.id == tc.id then
                  { x with name := u.name.getD x.name,
                           contact := u.contact.getD x.contact } else x) := by
          unfold findCustomer
          rw [hcust]
          rw [find?_map_pred _ _ ?_ db.customers]
          intro a
          by_cases h : a.id = tc.id <;> simp [h]
        rw [hfind, hcform] at hc'
        cases hc'
        by_cases h : c.id = tc.id <;> simp [h]
    | deleteCustomer i =>
      rcases hf : findCustomer db i with _ | tc
      · refine debt_eq_of_customers_eq ?_ hc hc'
        simp [applyOp, delete_customer, hf]
      · have hcust : (applyOp logOk db (Op.deleteCustomer i)).2.customers
            = db.customers.filter (fun x => !(x.id == tc.id)) := by
          simp [applyOp, delete_customer, hf, withLog_customers]
        have hcform : db.customers.find? (fun x => x.id == cid) = some c := hc
        by_cases hsame : cid = tc.id
        · exfalso
          have hnone : findCustomer (applyOp logOk db (Op.deleteCustomer i)).2 cid
              = none := by
            unfold findCustomer
            rw [hcust]
            refine find?_filter_none _ _ _ ?_
            intro a ha
            have : a.id = cid := by simpa using ha
            simp [this, hsame]
          rw [hnone] at hc'
          cases hc'
        · have hfind : findCustomer (applyOp logOk db (Op.deleteCustomer i)).2 cid
              = some c := by
            unfold findCustomer
            rw [hcust]
            rw [find?_filter_of_imp _ _ _ ?_, hcform]
            intro a ha
            have : a.id = cid := by simpa using ha
            simp [this, hsame]
          rw [hfind] at hc'
          cases hc'
          rfl
  · intro req c a m hcase hdue hm hq
    simp [add_sale, hm, hq, hcase, hdue, withLog_customers]
  · intro req hcase
    rcases hmf : findMaterial db req.material_id with _ | m
    · simp [add_sale, hmf]
    · by_cases hq : m.total_quantity < req.quantity_sold
      · simp [add_sale, hmf, hq]
      · simp [add_sale, hmf, hq, hcase, withLog_customers]
  · intro req hdue
    rcases hmf : findMaterial db req.material_id with _ | m
    · simp [add_sale, hmf]
    · by_cases hq : m.total_quantity < req.quantity_sold
      · simp [add_sale, hmf, hq]
      · rcases hcase : req.customer_id.bind (fun i => findCustomer db i) with _ | c <;>
          simp [add_sale, hmf, hq, hcase, hdue, withLog_customers]

theorem C9_debt_invariant_witness :
    (add_customer true dbMC ⟨"Bob", "123"⟩).2.customers
      = dbMC.customers ++ [newCustomerRow dbMC ⟨"Bob", "123"⟩] ∧
    (newCustomerRow dbMC ⟨"Bob", "123"⟩).debt = 0 ∧
    custA.debt = custA.debt ∧
    (add_sale true dbMC ⟨1, some 1, 2, 5, some 30⟩).2.customers
      = dbMC.customers.map (fun x => if x.id == custA.id then
          { x with debt := x.debt + 30 } else x) := by
  have h := C9_debt_invariant true dbMC
  exact ⟨h.1 ⟨"Bob", "123"⟩, h.2.1 ⟨"Bob", "123"⟩,
    h.2.2.2.1 (Op.updateRoll 1 2) (fun r hr => Op.noConfusion hr) 1 custA custA
      rfl rfl,
    h.2.2.2.2.1 ⟨1, some 1, 2, 5, some 30⟩ custA 30 matA rfl rfl rfl (by decide)⟩
